import Mathlib

/-
Verification development for the wikisearch_agent repository.

Shallow embedding of:
  - src/wikisearch_agent/schemas/person.py  (PersonInfo, NameReference, ArticleNames)
  - src/wikisearch_agent/util.py            (ApplicationSecrets, fetch_api_keys,
                                             prompt_template_from_file)
  - src/wikisearch_agent/name_finder.py     (NameFinderAppState, App node builders,
                                             App.build_graph, App.run)

Python values of type `T | None` are embedded as `Option T`.  Pydantic model
construction is embedded as a validation function from a raw input record (in
which every field may be null) to `Except String Model`, mirroring pydantic
acceptance/rejection per declared field type.
-/

namespace WikisearchAgent

/-! ## Schemas: src/wikisearch_agent/schemas/person.py -/

/-- Embedding of the validated `PersonInfo` pydantic model (person.py lines 6-34).
Field types follow the Python declarations exactly: `birth_year`, `birth_month`
and `birth_day` are declared `int | None`; every other field, including the three
geographic-origin fields `continent_of_origin`, `country_of_origin` and
`locality_of_origin`, is declared plain `str` (required, non-null), even though
the latter two field descriptions speak of null. -/
structure PersonInfo where
  birth_name : String
  best_known_as : String
  alternate_names : List String
  best_known_for : String
  is_real : Bool
  is_human : Bool
  birth_year : Option Int
  birth_month : Option Int
  birth_day : Option Int
  assigned_gender_at_birth : String
  gender_identity : String
  continent_of_origin : String
  country_of_origin : String
  locality_of_origin : String
  deriving DecidableEq, Repr

/-- Raw constructor input for `PersonInfo`: each field is either a value of the
base type or null (`none`), exactly the shapes a caller can pass to the pydantic
constructor for our claims. -/
structure PersonInfoInput where
  birth_name : Option String
  best_known_as : Option String
  alternate_names : Option (List String)
  best_known_for : Option String
  is_real : Option Bool
  is_human : Option Bool
  birth_year : Option Int
  birth_month : Option Int
  birth_day : Option Int
  assigned_gender_at_birth : Option String
  gender_identity : Option String
  continent_of_origin : Option String
  country_of_origin : Option String
  locality_of_origin : Option String
  deriving DecidableEq, Repr

/-- Pydantic validation for a required (non-Optional) field: null is rejected
with a validation error naming the field. -/
def requireField (fieldName : String) : Option α → Except String α
  | some v => Except.ok v
  | none => Except.error ("ValidationError: " ++ fieldName ++ " must not be None")

/-- Embedding of pydantic construction of `PersonInfo`: fields declared
`int | None` accept null; fields declared `str`, `bool` or `list[str]` reject
null with a ValidationError. -/
def PersonInfo.validate (i : PersonInfoInput) : Except String PersonInfo := do
  let birth_name ← requireField "birth_name" i.birth_name
  let best_known_as ← requireField "best_known_as" i.best_known_as
  let alternate_names ← requireField "alternate_names" i.alternate_names
  let best_known_for ← requireField "best_known_for" i.best_known_for
  let is_real ← requireField "is_real" i.is_real
  let is_human ← requireField "is_human" i.is_human
  let assigned_gender_at_birth ← requireField "assigned_gender_at_birth" i.assigned_gender_at_birth
  let gender_identity ← requireField "gender_identity" i.gender_identity
  let continent_of_origin ← requireField "continent_of_origin" i.continent_of_origin
  let country_of_origin ← requireField "country_of_origin" i.country_of_origin
  let locality_of_origin ← requireField "locality_of_origin" i.locality_of_origin
  Except.ok {
    birth_name := birth_name
    best_known_as := best_known_as
    alternate_names := alternate_names
    best_known_for := best_known_for
    is_real := is_real
    is_human := is_human
    birth_year := i.birth_year
    birth_month := i.birth_month
    birth_day := i.birth_day
    assigned_gender_at_birth := assigned_gender_at_birth
    gender_identity := gender_identity
    continent_of_origin := continent_of_origin
    country_of_origin := country_of_origin
    locality_of_origin := locality_of_origin }

/-- Wrap an already-validated `PersonInfo` back into constructor input: every
required field is passed as a non-null value. -/
def PersonInfo.toInput (p : PersonInfo) : PersonInfoInput :=
  { birth_name := some p.birth_name
    best_known_as := some p.best_known_as
    alternate_names := some p.alternate_names
    best_known_for := some p.best_known_for
    is_real := some p.is_real
    is_human := some p.is_human
    birth_year := p.birth_year
    birth_month := p.birth_month
    birth_day := p.birth_day
    assigned_gender_at_birth := some p.assigned_gender_at_birth
    gender_identity := some p.gender_identity
    continent_of_origin := some p.continent_of_origin
    country_of_origin := some p.country_of_origin
    locality_of_origin := some p.locality_of_origin }

/-- Embedding of the `NameReference` pydantic model (person.py lines 37-49):
`name` is a required string, `relationship` and `url` are declared
`str | None`. -/
structure NameReference where
  name : String
  relationship : Option String
  url : Option String
  deriving DecidableEq, Repr

/-- Embedding of the `ArticleNames` pydantic model (person.py lines 52-55). -/
structure ArticleNames where
  names : List NameReference
  deriving DecidableEq, Repr

/-! ## JSON serialization of NameReference (pydantic model_dump / model_validate) -/

/-- Minimal JSON value model for serializing the schema records. -/
inductive Json where
  | null
  | str (s : String)
  | arr (xs : List Json)
  | obj (fields : List (String × Json))

/-- Serialize an optional string as JSON: null when absent. -/
def Json.ofOptStr : Option String → Json
  | some s => Json.str s
  | none => Json.null

/-- Pydantic serialization of `NameReference`: all three fields are emitted,
null-valued optional fields included. -/
def NameReference.toJson (r : NameReference) : Json :=
  Json.obj [("name", Json.str r.name),
            ("relationship", Json.ofOptStr r.relationship),
            ("url", Json.ofOptStr r.url)]

/-- Parse a JSON value as `str` (required field). -/
def Json.asStr : Json → Except String String
  | Json.str s => Except.ok s
  | _ => Except.error "ValidationError: expected a string"

/-- Parse a JSON value as `str | None`. -/
def Json.asOptStr : Json → Except String (Option String)
  | Json.str s => Except.ok (some s)
  | Json.null => Except.ok none
  | _ => Except.error "ValidationError: expected a string or null"

/-- Look up a required key in a JSON object field list. -/
def Json.getField (fields : List (String × Json)) (key : String) : Except String Json :=
  match fields.lookup key with
  | some v => Except.ok v
  | none => Except.error ("ValidationError: missing field " ++ key)

/-- Pydantic deserialization (model_validate) of `NameReference` from JSON. -/
def NameReference.fromJson : Json → Except String NameReference
  | Json.obj fields => do
      let nameJson ← Json.getField fields "name"
      let relJson ← Json.getField fields "relationship"
      let urlJson ← Json.getField fields "url"
      let name ← nameJson.asStr
      let relationship ← relJson.asOptStr
      let url ← urlJson.asOptStr
      Except.ok { name := name, relationship := relationship, url := url }
  | _ => Except.error "ValidationError: expected an object"

/-- Concrete fully-populated person record, mirroring the alice_in_wonderland
fixture of tests/test_name_finder.py. -/
def demoPerson : PersonInfo :=
  { birth_name := "Alice Liddel"
    best_known_as := "Alice"
    alternate_names := ["Alice in Wonderland"]
    best_known_for := "Falling down the rabbit hole"
    is_real := false
    is_human := true
    birth_year := some 1887
    birth_month := none
    birth_day := none
    assigned_gender_at_birth := "Female"
    gender_identity := "Female"
    continent_of_origin := "Europe"
    country_of_origin := "England"
    locality_of_origin := "Oxford" }

/-! ## Messages and orchestration state: src/wikisearch_agent/name_finder.py -/

/-- Embedding of the langchain message kinds appearing in the trace: system,
human (user), assistant, and tool-invocation-result messages. `ToolMessage`
corresponds to the `tool` constructor. -/
inductive Message where
  | system (content : String)
  | human (content : String)
  | ai (content : String)
  | tool (content : String)
  deriving DecidableEq, Repr

/-- Test for `isinstance(x, ToolMessage)` on a trace message. -/
def Message.isToolMessage : Message → Bool
  | Message.tool _ => true
  | _ => false

/-- Text content of a trace message (`x.content`). -/
def Message.content : Message → String
  | Message.system c => c
  | Message.human c => c
  | Message.ai c => c
  | Message.tool c => c

/-- Embedding of `NameFinderAppState` (name_finder.py lines 31-35): the
langgraph AgentState fields `messages` and `remaining_steps` plus the three
declared slots `target_person`, `entity_data`, `article_name_data`. -/
structure NameFinderAppState where
  messages : List Message
  remaining_steps : Int
  target_person : Option String
  entity_data : Option PersonInfo
  article_name_data : Option ArticleNames
  deriving DecidableEq, Repr

/-- A langgraph node return value: a partial state update. A field holds
`some v` when the node returned that key with value `v`, and `none` when the
key was absent from the returned dict. The nodes of this app never return the
`remaining_steps` key, so it is not part of an update. -/
structure StateUpdate where
  messages : Option (List Message) := none
  target_person : Option (Option String) := none
  entity_data : Option PersonInfo := none
  article_name_data : Option ArticleNames := none
  deriving DecidableEq, Repr

/-- Langgraph channel merge of a node update into the state: the `messages`
channel has the add_messages reducer (returned messages are appended to the
trace), every other present key overwrites the previous value, and absent keys
leave the state untouched. -/
def applyUpdate (s : NameFinderAppState) (u : StateUpdate) : NameFinderAppState :=
  { messages := s.messages ++ u.messages.getD []
    remaining_steps := s.remaining_steps
    target_person := u.target_person.getD s.target_person
    entity_data := match u.entity_data with
      | some p => some p
      | none => s.entity_data
    article_name_data := match u.article_name_data with
      | some a => some a
      | none => s.article_name_data }

/-- Result of the react agent invocation inside the Entity Researcher node: a
structured response parsed as PersonInfo together with the full message trace
of the tool-call loop. -/
structure AgentResult where
  structured_response : PersonInfo
  messages : List Message
  deriving DecidableEq, Repr

namespace App

/-- Embedding of `App.build_entity_analyzer_node` (name_finder.py lines 68-81).
The LLM-driven react agent is the environment parameter `agent`, a function
from the prompt input (the value of `target_person`) to an agent result; the
node invokes it and returns the update dict with keys `entity_data` and
`messages`. -/
def build_entity_analyzer_node (agent : Option String → AgentResult)
    (state : NameFinderAppState) : StateUpdate :=
  let result := agent state.target_person
  { entity_data := some result.structured_response
    messages := some result.messages }

/-- Embedding of `App.build_name_locator_node` (name_finder.py lines 83-88).
The second LLM with structured output is the environment parameter `scraper`,
a function from the prompt input `all_docs` to an ArticleNames value. The docs
are the contents of the ToolMessage entries of the trace, joined by newline. -/
def build_name_locator_node (scraper : String → ArticleNames)
    (state : NameFinderAppState) : StateUpdate :=
  let docs := (state.messages.filter Message.isToolMessage).map Message.content
  let docsJoined := String.intercalate "\n" docs
  { article_name_data := some (scraper docsJoined) }

end App

/-! ## The orchestration graph: App.build_graph (name_finder.py lines 90-99) -/

/-- Embedding of the langgraph sentinel node name START. -/
def START : String := "__start__"

/-- Embedding of the langgraph sentinel node name END. -/
def END : String := "__end__"

/-- Node name constant from build_graph. -/
def ENTITY_RESEARCHER_NODE : String := "Entity Researcher"

/-- Node name constant from build_graph. -/
def NAME_FINDER_NODE : String := "Names Finder"

/-- Embedding of a langgraph StateGraph builder over NameFinderAppState: named
nodes carrying their node function, and directed edges between node names. -/
structure StateGraph where
  nodes : List (String × (NameFinderAppState → StateUpdate)) := []
  edges : List (String × String) := []

/-- Embedding of StateGraph.add_node. -/
def StateGraph.add_node (g : StateGraph) (name : String)
    (f : NameFinderAppState → StateUpdate) : StateGraph :=
  { g with nodes := g.nodes ++ [(name, f)] }

/-- Embedding of StateGraph.add_edge. -/
def StateGraph.add_edge (g : StateGraph) (src dst : String) : StateGraph :=
  { g with edges := g.edges ++ [(src, dst)] }

/-- Embedding of App.build_graph: the same add_node / add_edge calls in source
order, with the two node functions instantiated from the environment
parameters of the node builders. Compilation of the builder adds nothing the
claims depend on, so the compiled graph is the builder data itself. -/
def App.build_graph (agent : Option String → AgentResult)
    (scraper : String → ArticleNames) : StateGraph :=
  let builder : StateGraph := {}
  let builder := builder.add_node ENTITY_RESEARCHER_NODE (App.build_entity_analyzer_node agent)
  let builder := builder.add_edge START ENTITY_RESEARCHER_NODE
  let builder := builder.add_node NAME_FINDER_NODE (App.build_name_locator_node scraper)
  let builder := builder.add_edge ENTITY_RESEARCHER_NODE NAME_FINDER_NODE
  let builder := builder.add_edge NAME_FINDER_NODE END
  builder

/-- Successor of a node in the compiled graph: the destination of the first
edge leaving it, if any. -/
def StateGraph.successor (g : StateGraph) (n : String) : Option String :=
  g.edges.lookup n

/-- Node function registered under a name, or the empty update for an unknown
name. -/
def StateGraph.nodeFun (g : StateGraph) (name : String) :
    NameFinderAppState → StateUpdate :=
  match g.nodes.lookup name with
  | some f => f
  | none => fun _ => {}

/-- Sequential execution of the compiled graph from a current node: follow the
unique outgoing edge; stop at END or when no edge leaves the node; otherwise
run the next node and merge its update. Returns the list of states produced
after each node invocation. `fuel` bounds the recursion. -/
def StateGraph.execStatesFrom (g : StateGraph) (fuel : Nat) (cur : String)
    (s : NameFinderAppState) : List NameFinderAppState :=
  match fuel with
  | 0 => []
  | Nat.succ fuel =>
    match g.successor cur with
    | none => []
    | some nxt =>
      if nxt = END then []
      else
        let s2 := applyUpdate s (g.nodeFun nxt s)
        s2 :: g.execStatesFrom fuel nxt s2

/-- All states reachable during an execution of the compiled graph started at
state `s0`: the start state followed by the state after each node invocation. -/
def StateGraph.execStates (g : StateGraph) (fuel : Nat)
    (s0 : NameFinderAppState) : List NameFinderAppState :=
  s0 :: g.execStatesFrom fuel START s0

/-- The sequence of node names invoked during an execution of the compiled
graph, in invocation order. -/
def StateGraph.execNodesFrom (g : StateGraph) (fuel : Nat) (cur : String) :
    List String :=
  match fuel with
  | 0 => []
  | Nat.succ fuel =>
    match g.successor cur with
    | none => []
    | some nxt => if nxt = END then [] else nxt :: g.execNodesFrom fuel nxt

/-- Embedding of the start state built in App.run (name_finder.py lines
113-117). -/
def start_state : NameFinderAppState :=
  { messages := []
    remaining_steps := 20
    target_person := some "Kitty Dukakis"
    entity_data := none
    article_name_data := none }

/-! ## Prompt templates: src/wikisearch_agent/util.py lines 128-148

The template machinery itself (langchain ChatPromptTemplate) is an external
collaborator of the repository; its behavior here is modelled from the spec
(sections 6 and 8) at the granularity the claims need: template texts hold
named interpolation placeholders written between braces, resolved at
invocation time. -/

/-- Opening brace character of placeholder syntax. -/
def lbraceChar : Char := Char.ofNat 123

/-- Closing brace character of placeholder syntax. -/
def rbraceChar : Char := Char.ofNat 125

/-- Segment of a template text: literal text or a named placeholder. -/
inductive Segment where
  | lit (s : String)
  | var (name : String)
  deriving DecidableEq, Repr

/-- Modelled from the spec: one-pass interpolation of a template text against a
variable assignment, the invocation-time resolution of placeholders (spec
section 6). On an opening brace, the name up to the next closing brace is a
placeholder: a supplied variable is replaced by its value, an unsupplied one is
left as literal placeholder text; an unclosed opening brace leaves the
remainder untouched; every other character is copied. -/
def fmtAux (vars : List (String × String)) : List Char → List Char
  | [] => []
  | c :: cs =>
    if c = lbraceChar then
      if cs.dropWhile (· != rbraceChar) = [] then c :: cs
      else
        (match vars.lookup (String.mk (cs.takeWhile (· != rbraceChar))) with
         | some v => v.data
         | none => c :: (cs.takeWhile (· != rbraceChar)) ++ [rbraceChar])
          ++ fmtAux vars (cs.dropWhile (· != rbraceChar)).tail
    else c :: fmtAux vars cs
termination_by l => l.length
decreasing_by
  · rename_i hdrop
    have h1 : (cs.dropWhile (· != rbraceChar)).length ≤ cs.length :=
      (List.dropWhile_sublist _).length_le
    have h2 : (cs.dropWhile (· != rbraceChar)).tail.length =
        (cs.dropWhile (· != rbraceChar)).length - 1 := List.length_tail _
    have h3 : (cs.dropWhile (· != rbraceChar)).length ≠ 0 := by
      simpa [List.length_eq_zero] using hdrop
    simp only [List.length_cons]
    omega
  · simp only [List.length_cons]
    omega

/-- Modelled from the spec: the decomposition of a template text into literal
and placeholder segments, the declarative reading of the same placeholder
syntax that `fmtAux` resolves in one pass. -/
def parseSegs : List Char → List Segment
  | [] => []
  | c :: cs =>
    if c = lbraceChar then
      if cs.dropWhile (· != rbraceChar) = [] then [Segment.lit (String.mk (c :: cs))]
      else
        Segment.var (String.mk (cs.takeWhile (· != rbraceChar)))
          :: parseSegs (cs.dropWhile (· != rbraceChar)).tail
    else Segment.lit (String.mk [c]) :: parseSegs cs
termination_by l => l.length
decreasing_by
  · rename_i hdrop
    have h1 : (cs.dropWhile (· != rbraceChar)).length ≤ cs.length :=
      (List.dropWhile_sublist _).length_le
    have h2 : (cs.dropWhile (· != rbraceChar)).tail.length =
        (cs.dropWhile (· != rbraceChar)).length - 1 := List.length_tail _
    have h3 : (cs.dropWhile (· != rbraceChar)).length ≠ 0 := by
      simpa [List.length_eq_zero] using hdrop
    simp only [List.length_cons]
    omega
  · simp only [List.length_cons]
    omega

/-- Rendering of one segment under a variable assignment: literal text is kept,
a supplied placeholder becomes its value, an unsupplied placeholder stays as
literal placeholder text. -/
def Segment.render (vars : List (String × String)) : Segment → String
  | Segment.lit s => s
  | Segment.var n =>
    match vars.lookup n with
    | some v => v
    | none => String.mk (lbraceChar :: (n.data ++ [rbraceChar]))

/-- Placeholder names occurring in a template text, in text order. -/
def extractVars (s : String) : List String :=
  (parseSegs s.data).filterMap (fun sg =>
    match sg with
    | Segment.var n => some n
    | Segment.lit _ => none)

/-- Modelled from the spec: the langchain ChatPromptTemplate value as far as
the claims observe it — the ordered (role, text) message rows and the declared
input variables. -/
structure ChatPromptTemplate where
  messages : List (String × String)
  input_variables : List String
  deriving DecidableEq, Repr

/-- Modelled from the spec: the ChatPromptTemplate constructor applied to a
list of (role, message) tuples declares as input variables the distinct
placeholder names of the message texts. -/
def ChatPromptTemplate.fromMessages (msgs : List (String × String)) : ChatPromptTemplate :=
  { messages := msgs
    input_variables := ((msgs.map (fun m => extractVars m.2)).flatten).dedup }

/-- Embedding of `prompt_template_from_file` (util.py lines 128-148). The YAML
load is external; its result, the ordered list of two-element rows, is the
input. The source builds the template from the comprehension
`[(role, msg) for role, msg in raw]`. -/
def prompt_template_from_file (raw : List (String × String)) : ChatPromptTemplate :=
  ChatPromptTemplate.fromMessages (raw.map (fun rm => (rm.1, rm.2)))

/-- String-level interpolation of a template text. -/
def formatStr (vars : List (String × String)) (s : String) : String :=
  String.mk (fmtAux vars s.data)

/-- Modelled from the spec: invoking a template with a variable assignment
interpolates every message text, keeping roles and order. -/
def ChatPromptTemplate.invoke (t : ChatPromptTemplate)
    (vars : List (String × String)) : List (String × String) :=
  t.messages.map (fun m => (m.1, formatStr vars m.2))

/-! ## Secrets and startup: src/wikisearch_agent/util.py and App.init -/

/-- Embedding of the `ApplicationSecrets` dataclass (util.py lines 102-108):
four optional string credentials. -/
structure ApplicationSecrets where
  langsmith_api : Option String := none
  openai_api : Option String := none
  openai_project_id : Option String := none
  wikimedia_access_token : Option String := none
  deriving DecidableEq, Repr

/-- Embedding of `fetch_api_keys` (util.py lines 111-126). The OS keyring is
the environment parameter: a map from (service name, account name) to an
optional secret; missing or permission-denied keys are `none`. -/
def fetch_api_keys (keyring : String → String → Option String) : ApplicationSecrets :=
  { langsmith_api := keyring "net.illation.heather/langsmith" "terran.lane@gmail.com"
    openai_api := keyring "net.illation.heather/openai/prototyping" "heather"
    openai_project_id := keyring "net.illation.heather/openai/project_ids/wikisearch" "heather"
    wikimedia_access_token :=
      keyring "net.illation.heather/wikimedia/access_token/AgenticWikisearch" "Lady Dataslayer" }

/-- Observable events of a program run, in the order the source performs them.
Network activity is the MCP transport opening, the session handshake, the tool
listing, and each LLM call (spec section 5 names these as the network-bound
boundaries). -/
inductive AppEvent where
  | logging_setup
  | keyring_fetch
  | mcp_connect
  | mcp_handshake
  | load_tools
  | llm_call
  deriving DecidableEq, Repr

/-- Classification of an event as network activity. -/
def AppEvent.isNetwork : AppEvent → Bool
  | AppEvent.mcp_connect => true
  | AppEvent.mcp_handshake => true
  | AppEvent.load_tools => true
  | AppEvent.llm_call => true
  | AppEvent.logging_setup => false
  | AppEvent.keyring_fetch => false

/-- Embedding of `App.__init__` (name_finder.py lines 44-66): set up logging,
fetch the API keys from the keyring, and raise PermissionError when the OpenAI
key lookup returned null; client objects built afterwards are local
constructions. Returns the events performed together with the outcome. -/
def App.init (keyring : String → String → Option String) :
    List AppEvent × Except String ApplicationSecrets :=
  let events := [AppEvent.logging_setup, AppEvent.keyring_fetch]
  let secrets := fetch_api_keys keyring
  if secrets.openai_api.isNone then
    (events, Except.error "PermissionError: do not have access to OpenAI API")
  else
    (events, Except.ok secrets)

/-- Embedding of the program entry (amain / App.run, name_finder.py lines
101-135): construct the App, then open the MCP transport, initialize the
session, load the tools, and run the compiled graph, whose two nodes each make
an LLM call. A constructor error terminates the program before the run body. -/
def App.amain (keyring : String → String → Option String)
    (agent : Option String → AgentResult) (scraper : String → ArticleNames) :
    List AppEvent × Except String NameFinderAppState :=
  match App.init keyring with
  | (events, Except.error e) => (events, Except.error e)
  | (events, Except.ok _) =>
    let g := App.build_graph agent scraper
    (events ++ [AppEvent.mcp_connect, AppEvent.mcp_handshake, AppEvent.load_tools,
                AppEvent.llm_call, AppEvent.llm_call],
     Except.ok ((g.execStates 20 start_state).getLastD start_state))

/-! ## Concrete demonstration values used by witnesses -/

/-- Concrete react-agent environment: returns the demo person and a small
trace containing one tool-result message. -/
def demoAgent : Option String → AgentResult := fun _ =>
  { structured_response := demoPerson
    messages := [Message.human "find Kitty Dukakis",
                 Message.tool "Kitty Dukakis is an American author.",
                 Message.ai "done"] }

/-- Concrete scraper environment: returns one name reference. -/
def demoScraper : String → ArticleNames := fun _ =>
  { names := [{ name := "Michael Dukakis", relationship := some "husband", url := none }] }

/-- State after the Entity Researcher node in the demo run. -/
def demoState1 : NameFinderAppState :=
  applyUpdate start_state (App.build_entity_analyzer_node demoAgent start_state)

/-- State after the Names Finder node in the demo run. -/
def demoState2 : NameFinderAppState :=
  applyUpdate demoState1 (App.build_name_locator_node demoScraper demoState1)

/-- Concrete prompt rows mirroring prompts/name_extractor_agent.yaml as the
test test_load_name_extractor_agent_prompt reads it: two rows whose texts
mention the person placeholder. -/
def demoRows : List (String × String) :=
  [("system", "You are a researcher. \x7bformat_instructions\x7d"),
   ("user", "Research the person \x7bperson\x7d.")]

/-- Spec-side reading of the Name Locator input derivation (spec section 4.2):
the document texts concatenated in trace order with newline separation, the
empty string when there are none. -/
def specJoinNewline : List String → String
  | [] => ""
  | [d] => d
  | d :: rest => d ++ "\n" ++ specJoinNewline rest

/-- Concrete variable assignment used by witnesses. -/
def demoVars : List (String × String) := [("person", "Kitty Dukakis")]

/-- Concrete keyring environment with every secret missing. -/
def demoKeyringEmpty : String → String → Option String := fun _ _ => none

/-! ## Helper lemmas -/

theorem specJoinNewline_shift (x y : String) :
    ∀ bs, specJoinNewline ((x ++ "\n" ++ y) :: bs) = x ++ "\n" ++ specJoinNewline (y :: bs)
  | [] => rfl
  | b :: bs => by simp [specJoinNewline, String.append_assoc]

theorem intercalate_newline_eq_specJoin (l : List String) :
    String.intercalate "\n" l = specJoinNewline l := by
  cases l with
  | nil => rfl
  | cons a as =>
    show String.intercalate.go a "\n" as = specJoinNewline (a :: as)
    induction as generalizing a with
    | nil => rfl
    | cons b bs ih =>
      show String.intercalate.go (a ++ "\n" ++ b) "\n" bs = specJoinNewline (a :: b :: bs)
      rw [ih (a ++ "\n" ++ b)]
      exact specJoinNewline_shift a b bs

theorem fmt_eq_render (vars : List (String × String)) (cs : List Char) :
    fmtAux vars cs = ((parseSegs cs).map (fun sg => (Segment.render vars sg).data)).flatten := by
  match cs with
  | [] => simp [fmtAux, parseSegs]
  | c :: cs =>
    by_cases hc : c = lbraceChar
    · by_cases hdrop : cs.dropWhile (· != rbraceChar) = []
      · simp [fmtAux, parseSegs, hc, hdrop, Segment.render]
      · have ih := fmt_eq_render vars (cs.dropWhile (· != rbraceChar)).tail
        cases hlook : List.lookup (String.mk (cs.takeWhile (· != rbraceChar))) vars with
        | some v =>
          simp [fmtAux, parseSegs, hc, hdrop, hlook, ih, Segment.render]
        | none =>
          simp [fmtAux, parseSegs, hc, hdrop, hlook, ih, Segment.render]
    · have ih := fmt_eq_render vars cs
      simp [fmtAux, parseSegs, hc, ih, Segment.render]
termination_by cs.length
decreasing_by
  · have h1 : (cs.dropWhile (· != rbraceChar)).length ≤ cs.length :=
      (List.dropWhile_sublist _).length_le
    have h2 : (cs.dropWhile (· != rbraceChar)).tail.length =
        (cs.dropWhile (· != rbraceChar)).length - 1 := List.length_tail _
    have h3 : (cs.dropWhile (· != rbraceChar)).length ≠ 0 := by
      simpa [List.length_eq_zero] using hdrop
    simp only [List.length_cons]
    omega
  · simp only [List.length_cons]
    omega

/-! ## Claim theorems -/

/-- C3: the claim says constructing a PersonInfo with any of
continent_of_origin, country_of_origin or locality_of_origin set to null is
accepted. The code declares all three as plain `str`, so pydantic rejects null
for each of them: validation of an otherwise fully-populated record fails when
any one of the three is null. -/
theorem c3_geo_null_rejected :
    (PersonInfo.validate { demoPerson.toInput with continent_of_origin := none }) =
      Except.error "ValidationError: continent_of_origin must not be None" ∧
    (PersonInfo.validate { demoPerson.toInput with country_of_origin := none }) =
      Except.error "ValidationError: country_of_origin must not be None" ∧
    (PersonInfo.validate { demoPerson.toInput with locality_of_origin := none }) =
      Except.error "ValidationError: locality_of_origin must not be None" :=
  ⟨rfl, rfl, rfl⟩

/-- C9: a PersonInfo whose required fields are populated validates with any
negative birth_year, preserving the value, and also with birth_year null. -/
theorem c9_birth_year_accepted (p : PersonInfo) (y : Int) (hneg : y < 0) :
    (∃ q, PersonInfo.validate { p.toInput with birth_year := some y } = Except.ok q ∧
      q.birth_year = some y) ∧
    (∃ q, PersonInfo.validate { p.toInput with birth_year := none } = Except.ok q ∧
      q.birth_year = none) :=
  ⟨⟨{ p with birth_year := some y }, rfl, rfl⟩,
   ⟨{ p with birth_year := none }, rfl, rfl⟩⟩

/-- Witness for C9 at the concrete record demoPerson and birth year -42. -/
theorem c9_birth_year_accepted_witness :
    (∃ q, PersonInfo.validate { demoPerson.toInput with birth_year := some (-42) } = Except.ok q ∧
      q.birth_year = some (-42)) ∧
    (∃ q, PersonInfo.validate { demoPerson.toInput with birth_year := none } = Except.ok q ∧
      q.birth_year = none) :=
  c9_birth_year_accepted demoPerson (-42) (by norm_num)

/-- C10: serializing a NameReference whose relationship and url are both null
and deserializing the result returns the original record. -/
theorem c10_name_reference_roundtrip (r : NameReference)
    (hrel : r.relationship = none) (hurl : r.url = none) :
    NameReference.fromJson (NameReference.toJson r) = Except.ok r := by
  cases r with
  | mk name relationship url =>
    cases hrel
    cases hurl
    rfl

/-- Witness for C10 at a concrete record with both optional fields null. -/
theorem c10_name_reference_roundtrip_witness :
    NameReference.fromJson
        (NameReference.toJson { name := "Ada Lovelace", relationship := none, url := none }) =
      Except.ok { name := "Ada Lovelace", relationship := none, url := none } :=
  c10_name_reference_roundtrip { name := "Ada Lovelace", relationship := none, url := none } rfl rfl

/-- C2: the Name Locator node passes to the scraper LLM exactly the contents of
the ToolMessage entries of the trace, in trace order, joined with newline
separators, and the join of no documents is the empty string. -/
theorem c2_locator_input_derivation (scraper : String → ArticleNames)
    (state : NameFinderAppState) :
    App.build_name_locator_node scraper state =
      { article_name_data := some (scraper (specJoinNewline
          ((state.messages.filter Message.isToolMessage).map Message.content))) } ∧
    specJoinNewline ([] : List String) = "" := by
  constructor
  · simp [App.build_name_locator_node, intercalate_newline_eq_specJoin]
  · rfl

/-- C7: merging the Entity Researcher update writes entity_data and appends the
agent messages, leaving target_person and article_name_data unchanged; merging
the Name Locator update writes article_name_data, leaving target_person,
entity_data and messages unchanged. -/
theorem c7_node_updates_frame (agent : Option String → AgentResult)
    (scraper : String → ArticleNames) (s : NameFinderAppState) :
    ((applyUpdate s (App.build_entity_analyzer_node agent s)).target_person = s.target_person ∧
     (applyUpdate s (App.build_entity_analyzer_node agent s)).article_name_data =
       s.article_name_data ∧
     (applyUpdate s (App.build_entity_analyzer_node agent s)).entity_data =
       some (agent s.target_person).structured_response ∧
     (applyUpdate s (App.build_entity_analyzer_node agent s)).messages =
       s.messages ++ (agent s.target_person).messages) ∧
    ((applyUpdate s (App.build_name_locator_node scraper s)).target_person = s.target_person ∧
     (applyUpdate s (App.build_name_locator_node scraper s)).entity_data = s.entity_data ∧
     (applyUpdate s (App.build_name_locator_node scraper s)).messages = s.messages ∧
     (applyUpdate s (App.build_name_locator_node scraper s)).article_name_data =
       some (scraper (String.intercalate "\n"
         ((s.messages.filter Message.isToolMessage).map Message.content)))) := by
  refine ⟨⟨rfl, rfl, rfl, rfl⟩, rfl, rfl, ?_, rfl⟩
  simp [applyUpdate, App.build_name_locator_node]

/-- C4 counterexample: build_graph registers three add_edge calls
(START to researcher, researcher to locator, locator to END), so the compiled
graph does not have exactly two edges as the claim states. -/
theorem c4_two_edges_refuted :
    ¬ ((App.build_graph demoAgent demoScraper).edges.length = 2) := by decide

/-- C4 amended: build_graph is a fixed two-node, three-edge linear graph
START to Entity Researcher to Names Finder to END: exactly those two nodes in
order, exactly those three edges in order, no two edges leave the same node,
no two edges enter the same node, and no edge is a self loop. -/
theorem c4_graph_shape (agent : Option String → AgentResult)
    (scraper : String → ArticleNames) :
    (App.build_graph agent scraper).nodes.map Prod.fst =
      [ENTITY_RESEARCHER_NODE, NAME_FINDER_NODE] ∧
    (App.build_graph agent scraper).edges =
      [(START, ENTITY_RESEARCHER_NODE), (ENTITY_RESEARCHER_NODE, NAME_FINDER_NODE),
       (NAME_FINDER_NODE, END)] ∧
    ((App.build_graph agent scraper).edges.map Prod.fst).Nodup ∧
    ((App.build_graph agent scraper).edges.map Prod.snd).Nodup ∧
    (App.build_graph agent scraper).edges.filter (fun e => e.1 == e.2) = [] :=
  ⟨rfl, rfl,
   by show ([START, ENTITY_RESEARCHER_NODE, NAME_FINDER_NODE] : List String).Nodup; decide,
   by show ([ENTITY_RESEARCHER_NODE, NAME_FINDER_NODE, END] : List String).Nodup; decide,
   rfl⟩

/-- C5: when the keyring lookup for the OpenAI API key returns null, the
program terminates with PermissionError, and no network event has occurred. -/
theorem c5_missing_credential_fatal (keyring : String → String → Option String)
    (agent : Option String → AgentResult) (scraper : String → ArticleNames)
    (h : (fetch_api_keys keyring).openai_api = none) :
    (App.amain keyring agent scraper).2 =
      Except.error "PermissionError: do not have access to OpenAI API" ∧
    ∀ e ∈ (App.amain keyring agent scraper).1, e.isNetwork = false := by
  constructor
  · simp [App.amain, App.init, h]
  · intro e he
    simp [App.amain, App.init, h] at he
    rcases he with rfl | rfl <;> rfl

/-- Witness for C5 at the keyring environment with every secret missing. -/
theorem c5_missing_credential_fatal_witness :
    (App.amain demoKeyringEmpty demoAgent demoScraper).2 =
      Except.error "PermissionError: do not have access to OpenAI API" ∧
    ∀ e ∈ (App.amain demoKeyringEmpty demoAgent demoScraper).1, e.isNetwork = false :=
  c5_missing_credential_fatal demoKeyringEmpty demoAgent demoScraper rfl

/-- C6: prompt_template_from_file keeps the parsed rows as the template
messages exactly and in order (so N rows yield N messages with matching roles
and texts), and a name is a declared input variable exactly when it occurs as a
placeholder in some row text. -/
theorem c6_prompt_template_roundtrip (raw : List (String × String)) :
    (prompt_template_from_file raw).messages = raw ∧
    (prompt_template_from_file raw).messages.length = raw.length ∧
    ∀ v, v ∈ (prompt_template_from_file raw).input_variables ↔
      ∃ m ∈ raw, v ∈ extractVars m.2 := by
  have hmsg : (prompt_template_from_file raw).messages = raw := by
    simp [prompt_template_from_file, ChatPromptTemplate.fromMessages]
  refine ⟨hmsg, by rw [hmsg], ?_⟩
  intro v
  have heta : raw.map (fun rm : String × String => (rm.1, rm.2)) = raw := by simp
  simp only [prompt_template_from_file, ChatPromptTemplate.fromMessages, heta, List.mem_dedup,
    List.mem_flatten, List.mem_map, Prod.exists]
  constructor
  · rintro ⟨l, ⟨a, b, hab, rfl⟩, hv⟩
    exact ⟨a, b, hab, hv⟩
  · rintro ⟨a, b, hab, hv⟩
    exact ⟨extractVars b, ⟨a, b, hab, rfl⟩, hv⟩

/-- Witness for C6 at the concrete two-row prompt file: two messages out, and
the person placeholder is declared. -/
theorem c6_prompt_template_roundtrip_witness :
    (prompt_template_from_file demoRows).messages = demoRows ∧
    ("person" ∈ (prompt_template_from_file demoRows).input_variables ↔
      ∃ m ∈ demoRows, "person" ∈ extractVars m.2) :=
  ⟨(c6_prompt_template_roundtrip demoRows).1,
   (c6_prompt_template_roundtrip demoRows).2.2 "person"⟩

/-- C8: invoking a template interpolates every message text as the rendering
of its parsed segments, in which every placeholder whose variable is supplied
becomes exactly the supplied value, and only a placeholder whose variable is
not supplied is left as literal placeholder text. -/
theorem c8_interpolation (msgs : List (String × String)) (vars : List (String × String)) :
    (ChatPromptTemplate.fromMessages msgs).invoke vars =
      msgs.map (fun m => (m.1, String.mk
        (((parseSegs m.2.data).map (fun sg => (Segment.render vars sg).data)).flatten))) ∧
    (∀ n v, vars.lookup n = some v → Segment.render vars (Segment.var n) = v) ∧
    (∀ n, vars.lookup n = none →
      Segment.render vars (Segment.var n) = String.mk (lbraceChar :: (n.data ++ [rbraceChar]))) := by
  refine ⟨?_, ?_, ?_⟩
  · simp [ChatPromptTemplate.invoke, ChatPromptTemplate.fromMessages, formatStr, fmt_eq_render]
  · intro n v h
    simp [Segment.render, h]
  · intro n h
    simp [Segment.render, h]

/-- Witness for C8 at the concrete rows and assignment: the supplied person
placeholder renders to its value, and the invocation equals the segment
rendering of both rows. -/
theorem c8_interpolation_witness :
    Segment.render demoVars (Segment.var "person") = "Kitty Dukakis" ∧
    (ChatPromptTemplate.fromMessages demoRows).invoke demoVars =
      demoRows.map (fun m => (m.1, String.mk
        (((parseSegs m.2.data).map (fun sg => (Segment.render demoVars sg).data)).flatten))) :=
  ⟨(c8_interpolation demoRows demoVars).2.1 "person" "Kitty Dukakis" rfl,
   (c8_interpolation demoRows demoVars).1⟩

/-- Successor of START in the compiled graph. -/
theorem successor_start (agent : Option String → AgentResult)
    (scraper : String → ArticleNames) :
    (App.build_graph agent scraper).successor START = some ENTITY_RESEARCHER_NODE := rfl

/-- Successor of the Entity Researcher node in the compiled graph. -/
theorem successor_researcher (agent : Option String → AgentResult)
    (scraper : String → ArticleNames) :
    (App.build_graph agent scraper).successor ENTITY_RESEARCHER_NODE =
      some NAME_FINDER_NODE := rfl

/-- Successor of the Names Finder node in the compiled graph. -/
theorem successor_names_finder (agent : Option String → AgentResult)
    (scraper : String → ArticleNames) :
    (App.build_graph agent scraper).successor NAME_FINDER_NODE = some END := rfl

/-- Node function registered for the Entity Researcher node. -/
theorem nodeFun_researcher (agent : Option String → AgentResult)
    (scraper : String → ArticleNames) :
    (App.build_graph agent scraper).nodeFun ENTITY_RESEARCHER_NODE =
      App.build_entity_analyzer_node agent := rfl

/-- Node function registered for the Names Finder node. -/
theorem nodeFun_names_finder (agent : Option String → AgentResult)
    (scraper : String → ArticleNames) :
    (App.build_graph agent scraper).nodeFun NAME_FINDER_NODE =
      App.build_name_locator_node scraper := rfl

/-- Execution stops after the Names Finder node: its successor is END. -/
theorem execStatesFrom_names_finder_nil (agent : Option String → AgentResult)
    (scraper : String → ArticleNames) (s : NameFinderAppState) :
    ∀ n, (App.build_graph agent scraper).execStatesFrom n NAME_FINDER_NODE s = []
  | 0 => rfl
  | _ + 1 => rfl

/-- With no fuel the execution trace is the start state alone. -/
theorem execStates_fuel_zero (agent : Option String → AgentResult)
    (scraper : String → ArticleNames) (s0 : NameFinderAppState) :
    (App.build_graph agent scraper).execStates 0 s0 = [s0] := rfl

/-- With one unit of fuel the execution trace is the start state and the state
after the Entity Researcher node. -/
theorem execStates_fuel_one (agent : Option String → AgentResult)
    (scraper : String → ArticleNames) (s0 : NameFinderAppState) :
    (App.build_graph agent scraper).execStates 1 s0 =
      [s0, applyUpdate s0 (App.build_entity_analyzer_node agent s0)] := rfl

/-- With two or more units of fuel the execution trace is the start state, the
state after the Entity Researcher node, and the state after the Names Finder
node; the run then reaches END. -/
theorem execStates_fuel_ge_two (agent : Option String → AgentResult)
    (scraper : String → ArticleNames) (s0 : NameFinderAppState) :
    ∀ n, (App.build_graph agent scraper).execStates (n + 2) s0 =
      [s0,
       applyUpdate s0 (App.build_entity_analyzer_node agent s0),
       applyUpdate (applyUpdate s0 (App.build_entity_analyzer_node agent s0))
         (App.build_name_locator_node scraper
           (applyUpdate s0 (App.build_entity_analyzer_node agent s0)))]
  | 0 => rfl
  | _ + 1 => rfl

/-- C1: in every execution of the compiled graph, the node invocation order is
Entity Researcher first and Names Finder second, and from any start state whose
article_name_data slot is null, every reachable state in which
article_name_data is set also has entity_data set. -/
theorem c1_locator_after_researcher (agent : Option String → AgentResult)
    (scraper : String → ArticleNames) (fuel : Nat) (s0 : NameFinderAppState)
    (h0 : s0.article_name_data = none) :
    (∀ n : Nat, (App.build_graph agent scraper).execNodesFrom (n + 2) START =
      [ENTITY_RESEARCHER_NODE, NAME_FINDER_NODE]) ∧
    ∀ s ∈ (App.build_graph agent scraper).execStates fuel s0,
      s.article_name_data ≠ none → s.entity_data ≠ none := by
  constructor
  · intro n
    cases n with
    | zero => rfl
    | succ m => rfl
  · intro s hs hart
    match fuel with
    | 0 =>
      rw [execStates_fuel_zero agent scraper s0] at hs
      simp only [List.mem_singleton] at hs
      subst hs
      exact absurd h0 hart
    | 1 =>
      rw [execStates_fuel_one agent scraper s0] at hs
      simp only [List.mem_cons, List.mem_singleton, List.not_mem_nil, or_false] at hs
      rcases hs with rfl | rfl
      · exact absurd h0 hart
      · exact absurd h0 hart
    | n + 2 =>
      rw [execStates_fuel_ge_two agent scraper s0 n] at hs
      simp only [List.mem_cons, List.mem_singleton, List.not_mem_nil, or_false] at hs
      rcases hs with rfl | rfl | rfl
      · exact absurd h0 hart
      · exact absurd h0 hart
      · exact Option.some_ne_none _

/-- Witness for C1: in the demo run the state after the Names Finder node has
entity_data set. -/
theorem c1_locator_after_researcher_witness : demoState2.entity_data ≠ none :=
  (c1_locator_after_researcher demoAgent demoScraper 3 start_state rfl).2 demoState2
    (List.Mem.tail _ (List.Mem.tail _ (List.Mem.head _)))
    (by simp [demoState2, applyUpdate, App.build_name_locator_node])

end WikisearchAgent
